import Mathlib

/-!
Verification of the Neural Process training procedure in NP.py.

The numerical code is shallowly embedded over the real numbers:
tensors become functions out of `Fin`-indexed types, the random draws
(per-image keep probabilities, per-pixel uniforms, latent noise) become
explicit inputs, and each operation of the source is translated into a
Lean definition keeping the source's name where possible.
-/

namespace NP

open Finset Filter

/-! ## KL divergence (`kl_normal`, NP.py lines 93-100) -/

/-- Per-image KL of `kl_normal` in NP.py: `var = logvar.exp()`, then
`0.5 * (log var2 - log var1 + var1 / var2 + (mu1 - mu2)^2 / var2 - 1)`
summed over the latent dimensions (the last tensor dimension). -/
noncomputable def kl_normal {N D : ℕ} (mu1 logvar1 mu2 logvar2 : Fin N → Fin D → ℝ)
    (n : Fin N) : ℝ :=
  ∑ k, 0.5 * (Real.log (Real.exp (logvar2 n k)) - Real.log (Real.exp (logvar1 n k))
      + Real.exp (logvar1 n k) / Real.exp (logvar2 n k)
      + (mu1 n k - mu2 n k) ^ 2 / Real.exp (logvar2 n k) - 1)

/-- The KL term of the loss, NP.py line 160:
`kl_normal(z_params_full, z_params_masked).mean()` — full-context
parameters first, masked second, averaged over the batch. -/
noncomputable def kl_loss {N D : ℕ} (mu_full logvar_full mu_masked logvar_masked : Fin N → Fin D → ℝ) : ℝ :=
  (∑ n, kl_normal mu_full logvar_full mu_masked logvar_masked n) / N

/-- The spec's closed form for the KL term: with `σ² = exp(logvar)` so that
`log σ² = logvar`, the per-dimension term
`0.5·[log σ²_masked − log σ²_full + σ²_full/σ²_masked + (μ_full−μ_masked)²/σ²_masked − 1]`,
summed over latent dimensions and averaged over the batch, full-context
posterior as the first argument. -/
noncomputable def kl_spec_form {N D : ℕ} (mu_full logvar_full mu_masked logvar_masked : Fin N → Fin D → ℝ) : ℝ :=
  (∑ n, ∑ k, 0.5 * (logvar_masked n k - logvar_full n k
      + Real.exp (logvar_full n k) / Real.exp (logvar_masked n k)
      + (mu_full n k - mu_masked n k) ^ 2 / Real.exp (logvar_masked n k) - 1)) / N

/-! ## Latent sampler (`sample_z`, NP.py lines 103-108) -/

/-- Embedding of `sample_z` in NP.py: `var = logvar.exp(); z = mu + sqrt(var) * sample`,
with the standard-normal draw `sample` made an explicit input. -/
noncomputable def sample_z (mu logvar sample : ℝ) : ℝ :=
  mu + Real.sqrt (Real.exp logvar) * sample

/-! ## Context sampler (`random_sampling`, NP.py lines 71-90)

The two `torch.rand` draws are made explicit inputs: `ps n` is the
per-image scalar drawn once per image (the code expands it across the
`h*w` pixel dimension), and `us n p` is the per-pixel uniform draw. -/

open Classical in
/-- Embedding of `random_sampling` in NP.py: returns
`torch.cat([batch.unsqueeze(-1), grid], dim=-1)` — per point the channel
triple `[pixel value, x, y]` — together with the mask
`(us >= ps).float()`, of value 1 where the per-pixel draw is at least the
per-image threshold and 0 elsewhere. -/
noncomputable def random_sampling {N P : ℕ} (batch : Fin N → Fin P → ℝ)
    (grid : Fin P → ℝ × ℝ) (ps : Fin N → ℝ) (us : Fin N → Fin P → ℝ) :
    (Fin N → Fin P → Fin 3 → ℝ) × (Fin N → Fin P → ℝ) :=
  (fun n p => ![batch n p, (grid p).1, (grid p).2],
   fun n p => if us n p ≥ ps n then 1 else 0)

/-! ## Aggregator (NP.py lines 140-142) -/

/-- The denominator of the masked aggregation, NP.py line 141:
`1 + mask.sum(dim=1)`, one scalar per image. -/
def masked_denominator {N P : ℕ} (mask : Fin N → Fin P → ℝ) (n : Fin N) : ℝ :=
  1 + ∑ p, mask n p

/-- The masked aggregation `r_masked`, NP.py line 141:
`(context_full * mask).sum(dim=1) / (1 + mask.sum(dim=1))`, computed per
image `n` and hidden coordinate `k`. -/
noncomputable def r_masked {N P D : ℕ} (context_full : Fin N → Fin P → Fin D → ℝ)
    (mask : Fin N → Fin P → ℝ) (n : Fin N) (k : Fin D) : ℝ :=
  (∑ p, context_full n p k * mask n p) / masked_denominator mask n

/-- The full aggregation `r_full`, NP.py line 142: `context_full.mean(dim=1)`,
the unweighted mean over the `P` points; it takes no mask argument. -/
noncomputable def r_full {N P D : ℕ} (context_full : Fin N → Fin P → Fin D → ℝ)
    (n : Fin N) (k : Fin D) : ℝ :=
  (∑ p, context_full n p k) / P

/-! ## Reconstruction loss (NP.py lines 157-158) -/

/-- Pointwise `F.binary_cross_entropy(input, target)` with no reduction:
`-(target * log(input) + (1 - target) * log(1 - input))`. -/
noncomputable def binary_cross_entropy (input target : ℝ) : ℝ :=
  -(target * Real.log input + (1 - target) * Real.log (1 - input))

/-- Embedding of `reconstruction_loss`, NP.py lines 157-158: the per-pixel binary
cross-entropy multiplied elementwise by `(1 - mask)`, summed over the
pixels of each image (`sum(dim=1)`), then averaged over the batch
(`.mean()`). -/
noncomputable def reconstruction_loss {N P : ℕ}
    (reconstructed_image batch_target mask : Fin N → Fin P → ℝ) : ℝ :=
  (∑ n, ∑ p, binary_cross_entropy (reconstructed_image n p) (batch_target n p)
      * (1 - mask n p)) / N

/-! ## Sub-network parameters and forward passes (NP.py lines 13-47)

Each `nn.Module` becomes a record of its `Linear` layers' weights and
biases (its state dict), and its `forward` method becomes a function of
that record. -/

/-- State dict of `ContextEncoder`: `Linear(3,128)`, `Linear(128,128)`,
`Linear(128,64)`. -/
structure ContextEncoderParams where
  layer1_w : Fin 128 → Fin 3 → ℝ
  layer1_b : Fin 128 → ℝ
  layer2_w : Fin 128 → Fin 128 → ℝ
  layer2_b : Fin 128 → ℝ
  layer3_w : Fin 64 → Fin 128 → ℝ
  layer3_b : Fin 64 → ℝ

/-- State dict of `ContextToLatentDistribution`: `mu_layer` and
`logvar_layer`, both `Linear(64,64)`. -/
structure ContextToLatentDistributionParams where
  mu_layer_w : Fin 64 → Fin 64 → ℝ
  mu_layer_b : Fin 64 → ℝ
  logvar_layer_w : Fin 64 → Fin 64 → ℝ
  logvar_layer_b : Fin 64 → ℝ

/-- State dict of `Decoder`: `Linear(64+2,32)`, `Linear(32,16)`,
`Linear(16,1)`. -/
structure DecoderParams where
  layer1_w : Fin 32 → Fin 66 → ℝ
  layer1_b : Fin 32 → ℝ
  layer2_w : Fin 16 → Fin 32 → ℝ
  layer2_b : Fin 16 → ℝ
  layer3_w : Fin 1 → Fin 16 → ℝ
  layer3_b : Fin 1 → ℝ

/-- Application of one `nn.Linear` layer: `W x + b`. -/
noncomputable def linear {m k : ℕ} (w : Fin m → Fin k → ℝ) (b : Fin m → ℝ)
    (x : Fin k → ℝ) : Fin m → ℝ :=
  fun i => (∑ j, w i j * x j) + b i

/-- Rectifier `F.relu`. -/
def relu (x : ℝ) : ℝ := max 0 x

/-- Logistic `torch.sigmoid`. -/
noncomputable def sigmoid (x : ℝ) : ℝ := 1 / (1 + Real.exp (-x))

/-- Forward pass of `ContextEncoder` (NP.py lines 20-23) on one
(value, x, y) point. -/
noncomputable def ContextEncoder_forward (p : ContextEncoderParams)
    (x : Fin 3 → ℝ) : Fin 64 → ℝ :=
  linear p.layer3_w p.layer3_b
    (fun j => relu (linear p.layer2_w p.layer2_b
      (fun i => relu (linear p.layer1_w p.layer1_b x i)) j))

/-- Forward pass of `ContextToLatentDistribution` (NP.py lines 32-33):
the pair (mean, log-variance). -/
noncomputable def ContextToLatentDistribution_forward
    (p : ContextToLatentDistributionParams) (x : Fin 64 → ℝ) :
    (Fin 64 → ℝ) × (Fin 64 → ℝ) :=
  (linear p.mu_layer_w p.mu_layer_b x, linear p.logvar_layer_w p.logvar_layer_b x)

/-- Forward pass of `Decoder` (NP.py lines 43-47) on one
(latent, coordinate) concatenation, ending in a sigmoid. -/
noncomputable def Decoder_forward (p : DecoderParams) (x : Fin 66 → ℝ) : Fin 1 → ℝ :=
  fun i => sigmoid (linear p.layer3_w p.layer3_b
    (fun j => relu (linear p.layer2_w p.layer2_b
      (fun i2 => relu (linear p.layer1_w p.layer1_b x i2)) j)) i)

/-! ## Checkpoint save/load (NP.py lines 50-68)

`save_model` builds the dict
`{"encoder": ..., "context_to_latent_dist": ..., "decoder": ...}` of the
three state dicts and hands it to `torch.save`; `load_models` reads it
back with `torch.load` and `load_state_dict`s each sub-network, replacing
every parameter of the target networks. The persistence layer
(`torch.save`/`torch.load`) is external library code whose contract is a
lossless round-trip, so the checkpoint is modelled as the saved record
itself. -/

/-- The checkpoint record written by `save_model`: the three state dicts
keyed by component name. -/
structure Checkpoint where
  encoder : ContextEncoderParams
  context_to_latent_dist : ContextToLatentDistributionParams
  decoder : DecoderParams

/-- Embedding of `save_model` (NP.py lines 50-61): collects the three
sub-networks' state dicts into the persisted record. -/
def save_model (encoder : ContextEncoderParams)
    (context_to_latent_dist : ContextToLatentDistributionParams)
    (decoder : DecoderParams) : Checkpoint :=
  { encoder := encoder
    context_to_latent_dist := context_to_latent_dist
    decoder := decoder }

/-- Embedding of `load_models` (NP.py lines 64-68): `load_state_dict`
replaces every parameter of each freshly-initialized target network with
the checkpoint's corresponding state dict. -/
def load_models (ckpt : Checkpoint) (encoder : ContextEncoderParams)
    (context_to_latent_dist : ContextToLatentDistributionParams)
    (decoder : DecoderParams) :
    ContextEncoderParams × ContextToLatentDistributionParams × DecoderParams :=
  (ckpt.encoder, ckpt.context_to_latent_dist, ckpt.decoder)

/-! ## Training-loop checkpoint schedule (NP.py lines 121-175)

The loop `for epoch in range(n_epochs)` ends each epoch by printing the
mean epoch loss; `save_model` is called exactly once, after the loop has
finished. The observable save/epoch behaviour is modelled as an event
trace. -/

/-- Observable events of the training loop: the end of an epoch, and the
persisting of a checkpoint. -/
inductive TrainEvent where
  | epochEnd (epoch : ℕ)
  | save
deriving DecidableEq

/-- Event trace of `train` (NP.py lines 121-175): one `epochEnd` per
epoch in `range(n_epochs)`, then a single `save` after the loop
(line 174 is outside the `for epoch` loop). -/
def train_trace (n_epochs : ℕ) : List TrainEvent :=
  ((List.range n_epochs).map TrainEvent.epochEnd) ++ [TrainEvent.save]

/-- Modelled from the spec: the number of checkpoints the claimed schedule
predicts — one at every epoch index in `1..n_epochs` that is a positive
multiple of the cadence `K`. -/
def claimed_checkpoint_count (cadence n_epochs : ℕ) : ℕ :=
  ((List.range (n_epochs + 1)).filter fun e => 0 < e ∧ cadence ∣ e).length

/-! ## Tensor-shape assembly of the per-batch step (NP.py lines 149-158)

The claim C10 is about definedness, so the relevant reshaping operations
are modelled on shapes: an operation returns `none` exactly when PyTorch
would raise. `M` is the incoming batch's actual size, `batch_size` the
configured one. -/

/-- Shape of a rank-3 tensor. -/
structure Shape3 where
  n : ℕ
  p : ℕ
  d : ℕ
deriving DecidableEq

/-- Shape of `torch.cat([s, t], dim=-1)`: defined only when the two
leading dimensions agree. -/
def cat_last (s t : Shape3) : Option Shape3 :=
  if s.n = t.n ∧ s.p = t.p then some ⟨s.n, s.p, s.d + t.d⟩ else none

/-- Shape of `x.view(target)` for `x` of `numel` elements: defined only
when the element counts agree. -/
def view_as (numel : ℕ) (target : Shape3) : Option Shape3 :=
  if numel = target.n * target.p * target.d then some target else none

/-- Shape of elementwise `F.binary_cross_entropy(input, target,
reduction='none')`: defined only for equal shapes. -/
def bce_shape (input target : Shape3) : Option Shape3 :=
  if input = target then some input else none

/-- Shape-level assembly of the per-batch training step, NP.py lines
149-158, for an actual batch size `M`, configured `batch_size` and `P`
grid points: `z_full` is expanded to `(M, P, 64)` from the actual batch,
`grid_input` to `(batch_size, P, 2)` from the configured one; they are
concatenated, the ground truth is `batch.view(batch_size, h*w, 1)` on the
actual batch's `M * P` elements, the cross-entropy needs the decoder
output and the target to share a shape, and the `(1 - mask)` weighting
needs the mask's `(M, P, 1)` shape to match. -/
def train_step_shapes (batch_size M P : ℕ) : Option Shape3 :=
  (cat_last ⟨M, P, 64⟩ ⟨batch_size, P, 2⟩).bind fun target_input =>
  (view_as (M * P) ⟨batch_size, P, 1⟩).bind fun batch_view =>
  (bce_shape ⟨target_input.n, target_input.p, 1⟩ batch_view).bind fun bce =>
  if bce = ⟨M, P, 1⟩ then some bce else none

/-! ## Theorems -/

/-- Claim C2: the KL term of the loss (`kl_normal` applied to the
full-context parameters first and the masked-context parameters second,
then batch-averaged) equals the spec's closed-form diagonal-Gaussian KL
`0.5·[log σ²_masked − log σ²_full + σ²_full/σ²_masked + (μ_full−μ_masked)²/σ²_masked − 1]`
with `σ² = exp(logvar)`, summed over latent dimensions and averaged over
the batch. -/
theorem C2_kl_loss_eq_spec_form {N D : ℕ}
    (mu_full logvar_full mu_masked logvar_masked : Fin N → Fin D → ℝ) :
    kl_loss mu_full logvar_full mu_masked logvar_masked
      = kl_spec_form mu_full logvar_full mu_masked logvar_masked := by
  simp [kl_loss, kl_normal, kl_spec_form, Real.log_exp]

/-- Claim C5: the KL computation returns exactly 0 when the same
(mean, log-variance) pair is passed as both the full and the masked
parameters, for every input. -/
theorem C5_kl_normal_self_eq_zero {N D : ℕ} (mu logvar : Fin N → Fin D → ℝ) (n : Fin N) :
    kl_normal mu logvar mu logvar n = 0 := by
  have h : ∀ k : Fin D,
      0.5 * (Real.log (Real.exp (logvar n k)) - Real.log (Real.exp (logvar n k))
        + Real.exp (logvar n k) / Real.exp (logvar n k)
        + (mu n k - mu n k) ^ 2 / Real.exp (logvar n k) - 1) = 0 := by
    intro k
    rw [div_self (Real.exp_ne_zero _)]
    ring
  simp [kl_normal, h]

/-- Claim C4: the latent sampler returns `mean + sqrt(exp(log-variance)) ⊙ ε`
(a deterministic function of the parameters once the noise `ε` is fixed),
and as the log-variance tends to −∞ the sample tends to the mean, for every
noise value. -/
theorem C4_sample_z_form_and_limit (mu eps : ℝ) :
    (∀ logvar, sample_z mu logvar eps = mu + Real.sqrt (Real.exp logvar) * eps) ∧
    Tendsto (fun logvar => sample_z mu logvar eps) atBot (nhds mu) := by
  refine ⟨fun _ => rfl, ?_⟩
  have h1 : Tendsto (fun logvar : ℝ => Real.exp logvar) atBot (nhds 0) :=
    Real.tendsto_exp_atBot
  have h2 : Tendsto (fun logvar : ℝ => Real.sqrt (Real.exp logvar)) atBot (nhds 0) := by
    have h := (Real.continuous_sqrt.tendsto 0).comp h1
    simpa using h
  have h3 : Tendsto (fun logvar : ℝ => Real.sqrt (Real.exp logvar) * eps) atBot (nhds 0) := by
    simpa using h2.mul_const eps
  have h4 : Tendsto (fun logvar : ℝ => mu + Real.sqrt (Real.exp logvar) * eps)
      atBot (nhds (mu + 0)) := tendsto_const_nhds.add h3
  simpa [sample_z] using h4

/-- Claim C6: the context sampler returns the per-point channel triple
`[pixel value, x, y]` and a numeric {0,1} mask whose entry is 1 exactly
when the per-pixel uniform draw is at least the per-image threshold
(the threshold `ps n` being a single scalar shared by every pixel of
image `n`). -/
theorem C6_random_sampling_spec {N P : ℕ} (batch : Fin N → Fin P → ℝ)
    (grid : Fin P → ℝ × ℝ) (ps : Fin N → ℝ) (us : Fin N → Fin P → ℝ)
    (n : Fin N) (p : Fin P) :
    (random_sampling batch grid ps us).1 n p 0 = batch n p ∧
    (random_sampling batch grid ps us).1 n p 1 = (grid p).1 ∧
    (random_sampling batch grid ps us).1 n p 2 = (grid p).2 ∧
    ((random_sampling batch grid ps us).2 n p = 1 ↔ ps n ≤ us n p) ∧
    ((random_sampling batch grid ps us).2 n p = 0 ∨
      (random_sampling batch grid ps us).2 n p = 1) := by
  refine ⟨rfl, rfl, rfl, ?_, ?_⟩
  · by_cases h : ps n ≤ us n p <;> simp [random_sampling, ge_iff_le, h]
  · by_cases h : ps n ≤ us n p <;> simp [random_sampling, ge_iff_le, h]

/-- Counterexample to claim C1 as stated: with an all-ones mask the masked
aggregate is claimed to differ from the full aggregate "never by equality",
but on the all-zero feature tensor (N = P = D = 1) both aggregates are 0
and they are equal. -/
theorem C1_counterexample :
    r_masked (fun (_ : Fin 1) (_ : Fin 1) (_ : Fin 1) => (0 : ℝ)) (fun _ _ => 1) 0 0
      = r_full (fun (_ : Fin 1) (_ : Fin 1) (_ : Fin 1) => (0 : ℝ)) 0 0 := by
  simp [r_masked, r_full, masked_denominator]

/-- Claim C1 (amended): the masked aggregation is the mask-weighted sum
divided by `1 + (sum of the mask)`; with an all-ones mask over `P > 0`
points it equals `P/(P+1)` times the full (plain-mean) aggregation, and it
differs from the full aggregation whenever the full aggregate is nonzero
(equality holds exactly when the full aggregate is zero). -/
theorem C1_masked_vs_full_aggregation {N P D : ℕ} (hP : 0 < P)
    (context_full : Fin N → Fin P → Fin D → ℝ) (n : Fin N) (k : Fin D) :
    r_masked context_full (fun _ _ => 1) n k
        = ((P : ℝ) / (P + 1)) * r_full context_full n k ∧
    (r_full context_full n k ≠ 0 →
      r_masked context_full (fun _ _ => 1) n k ≠ r_full context_full n k) := by
  have hPne : ((P : ℕ) : ℝ) ≠ 0 := Nat.cast_ne_zero.mpr hP.ne'
  have hP1 : ((P : ℝ) + 1) ≠ 0 := by positivity
  have key : r_masked context_full (fun _ _ => 1) n k
      = ((P : ℝ) / (P + 1)) * r_full context_full n k := by
    simp only [r_masked, r_full, masked_denominator, mul_one, Finset.sum_const,
      Finset.card_univ, Fintype.card_fin, nsmul_eq_mul]
    field_simp
    ring
  refine ⟨key, fun hfull hcontra => ?_⟩
  rw [key] at hcontra
  have hone : ((P : ℝ) / (P + 1)) * r_full context_full n k
      = 1 * r_full context_full n k := by rw [one_mul]; exact hcontra
  have hdiv := mul_right_cancel₀ hfull hone
  rw [div_eq_iff hP1, one_mul] at hdiv
  linarith

/-- Witness for C1: with N = 1, P = 2, D = 1 and constant-1 features, the
full aggregate is 1 ≠ 0, so the masked aggregate (2/3) differs from it. -/
theorem C1_masked_vs_full_aggregation_witness :
    r_masked (fun (_ : Fin 1) (_ : Fin 2) (_ : Fin 1) => (1 : ℝ)) (fun _ _ => 1) 0 0
      ≠ r_full (fun (_ : Fin 1) (_ : Fin 2) (_ : Fin 1) => (1 : ℝ)) 0 0 :=
  (C1_masked_vs_full_aggregation (by norm_num)
      (fun _ _ _ => (1 : ℝ)) 0 0).2 (by norm_num [r_full])

/-- Claim C8: whenever the mask is {0,1}-valued (as every mask produced by
the context sampler is), the masked aggregation's denominator
`1 + mask.sum(dim=1)` is at least 1 — in particular nonzero, so the
division defining the masked aggregate never divides by zero, even for a
mask that is all-zero for an image. -/
theorem C8_masked_denominator_ge_one {N P : ℕ} (mask : Fin N → Fin P → ℝ)
    (hm : ∀ n p, mask n p = 0 ∨ mask n p = 1) (n : Fin N) :
    1 ≤ masked_denominator mask n ∧ masked_denominator mask n ≠ 0 := by
  have hsum : 0 ≤ ∑ p, mask n p :=
    Finset.sum_nonneg fun p _ => by rcases hm n p with h | h <;> simp [h]
  constructor
  · unfold masked_denominator; linarith
  · unfold masked_denominator
    intro hzero
    linarith

/-- Witness for C8: the all-zero mask on a 1-image, 2-pixel batch gives a
denominator of exactly 1, which is ≥ 1 and nonzero. -/
theorem C8_masked_denominator_ge_one_witness :
    1 ≤ masked_denominator (fun (_ : Fin 1) (_ : Fin 2) => (0 : ℝ)) 0 ∧
    masked_denominator (fun (_ : Fin 1) (_ : Fin 2) => (0 : ℝ)) 0 ≠ 0 :=
  C8_masked_denominator_ge_one _ (fun _ _ => Or.inl rfl) 0

/-- Claim C3: for a {0,1}-valued mask, the reconstruction loss (per-pixel
binary cross-entropy weighted by `1 - mask`, summed over pixels, averaged
over the batch) is unchanged when the decoder output is altered only at
positions where the mask is 1 — i.e. whenever two outputs agree at all
mask-0 positions, their losses are equal. -/
theorem C3_reconstruction_loss_mask_invariant {N P : ℕ}
    (mask : Fin N → Fin P → ℝ) (hm : ∀ n p, mask n p = 0 ∨ mask n p = 1)
    (out1 out2 batch_target : Fin N → Fin P → ℝ)
    (hagree : ∀ n p, mask n p = 0 → out1 n p = out2 n p) :
    reconstruction_loss out1 batch_target mask
      = reconstruction_loss out2 batch_target mask := by
  unfold reconstruction_loss
  congr 1
  apply Finset.sum_congr rfl
  intro n _
  apply Finset.sum_congr rfl
  intro p _
  rcases hm n p with h | h
  · rw [hagree n p h]
  · rw [h]; ring

/-- Witness for C3: on a 1-image, 2-pixel batch with mask [1, 0], changing
the decoder output at the mask-1 pixel (1/2 to 1/4) leaves the
reconstruction loss unchanged. -/
theorem C3_reconstruction_loss_mask_invariant_witness :
    reconstruction_loss (fun (_ : Fin 1) (_ : Fin 2) => (1 : ℝ) / 2)
        (fun _ _ => 1) (fun _ p => if p = 0 then 1 else 0)
      = reconstruction_loss (fun (_ : Fin 1) (p : Fin 2) => if p = 0 then (1 : ℝ) / 4 else 1 / 2)
        (fun _ _ => 1) (fun _ p => if p = 0 then 1 else 0) :=
  C3_reconstruction_loss_mask_invariant
    (fun _ p => if p = 0 then 1 else 0)
    (fun n p => by fin_cases p <;> simp)
    _ _ _
    (fun n p h => by fin_cases p <;> simp_all)

/-- Claim C7: saving a checkpoint of the three sub-networks and
immediately loading it into freshly-initialized sub-networks restores
every parameter exactly, so the restored encoder, latent head and decoder
produce outputs identical to the saved ones on every input. -/
theorem C7_checkpoint_roundtrip
    (encoder : ContextEncoderParams)
    (context_to_latent_dist : ContextToLatentDistributionParams)
    (decoder : DecoderParams)
    (fresh_encoder : ContextEncoderParams)
    (fresh_context_to_latent_dist : ContextToLatentDistributionParams)
    (fresh_decoder : DecoderParams) :
    load_models (save_model encoder context_to_latent_dist decoder)
        fresh_encoder fresh_context_to_latent_dist fresh_decoder
      = (encoder, context_to_latent_dist, decoder) ∧
    (∀ x, ContextEncoder_forward
        (load_models (save_model encoder context_to_latent_dist decoder)
          fresh_encoder fresh_context_to_latent_dist fresh_decoder).1 x
      = ContextEncoder_forward encoder x) ∧
    (∀ x, ContextToLatentDistribution_forward
        (load_models (save_model encoder context_to_latent_dist decoder)
          fresh_encoder fresh_context_to_latent_dist fresh_decoder).2.1 x
      = ContextToLatentDistribution_forward context_to_latent_dist x) ∧
    (∀ x, Decoder_forward
        (load_models (save_model encoder context_to_latent_dist decoder)
          fresh_encoder fresh_context_to_latent_dist fresh_decoder).2.2 x
      = Decoder_forward decoder x) :=
  ⟨rfl, fun _ => rfl, fun _ => rfl, fun _ => rfl⟩

/-- Counterexample to claim C9 as stated: over a 4-epoch run with cadence
K = 2 the claimed schedule predicts checkpoints at epochs 2 and 4 (two
saves), but the training loop's trace contains exactly one save event. -/
theorem C9_counterexample :
    (train_trace 4).count TrainEvent.save ≠ claimed_checkpoint_count 2 4 := by
  decide

/-- Claim C9 (amended): the training loop persists a checkpoint of all
three sub-networks exactly once per run, after the final epoch — the
save event is the last event of the trace — not on a per-K-epoch
cadence (no cadence exists in the code). -/
theorem C9_single_save_after_final_epoch (n_epochs : ℕ) :
    (train_trace n_epochs).count TrainEvent.save = 1 ∧
    (train_trace n_epochs).getLast? = some TrainEvent.save := by
  constructor
  · rw [train_trace, List.count_append]
    have h : (List.count TrainEvent.save ((List.range n_epochs).map TrainEvent.epochEnd)) = 0 := by
      rw [List.count_eq_zero]
      intro hmem
      rcases List.mem_map.mp hmem with ⟨e, _, habs⟩
      exact TrainEvent.noConfusion habs
    simp [h]
  · rw [train_trace]
    exact List.getLast?_concat _

/-- Claim C10: the per-batch tensor assembly of the training step is
defined exactly when the incoming batch's actual size `M` equals the
configured `batch_size` — a differing actual size (e.g. a smaller final
batch) makes the concatenation / view / loss shapes fail, and an equal
size always succeeds. -/
theorem C10_train_step_defined_iff_batch_size {batch_size M P : ℕ} :
    (train_step_shapes batch_size M P).isSome ↔ M = batch_size := by
  by_cases h : M = batch_size
  · subst h
    simp [train_step_shapes, cat_last, view_as, bce_shape, Nat.mul_one]
  · simp [train_step_shapes, cat_last, h]

end NP
